import Mathlib

/-!
Shallow embedding of `src/app.py` (kindle4w-reading-tracker): a Flask app
with three functions over one PostgreSQL table `kindle_logs`:
* `save_log` (route `/save`): validates token/title, then runs a CTE-guarded
  conditional `INSERT` meant to suppress consecutive duplicates;
* `get_logs` (route `/logs`): returns the rows for a token, newest first;
* `create_table_if_not_exists` / `add_url_column_if_not_exists`
  (run at startup and from `/init-db`): idempotent schema setup.

SQL `NULL` is modelled as `Option.none`; timestamps and ids as `Nat` (the
column is `SERIAL`, ids strictly increase; `created_at` defaults to the
current time, non-decreasing per insert order). psycopg2 parameter binding
is modelled explicitly because the save statement's placeholder arity
matters: binding a 3-tuple into 7 placeholders raises a client-side Python
exception (IndexError/TypeError), which is not a `psycopg2.Error`.
-/

namespace KindleApp

/-- One row of the `kindle_logs` table (src/app.py lines 49-55):
`id SERIAL PRIMARY KEY, token TEXT NOT NULL, title TEXT NOT NULL,
url TEXT, created_at TIMESTAMP DEFAULT CURRENT_TIMESTAMP`. -/
structure Row where
  id : Nat
  token : String
  title : String
  url : Option String
  created_at : Nat
  deriving Repr, DecidableEq

/-- The data-plane state: the stored rows plus the sequence counter for
`id SERIAL` and the storage clock supplying `created_at` defaults. -/
structure DB where
  rows : List Row
  nextId : Nat
  clock : Nat
  deriving Repr, DecidableEq

/-- A freshly initialised database with no rows. -/
def emptyDB : DB := { rows := [], nextId := 1, clock := 0 }

/-- Python truthiness of an optional string, as used by
`if not token or not title:` (src/app.py line 158) and
`if not token:` (line 221): `None` and `""` are falsy. -/
def pyTruthy : Option String → Bool
  | none => false
  | some s => s ≠ ""

/-- SQL three-valued `=` collapsed to the Bool a `WHERE` clause sees:
a comparison involving `NULL` yields `NULL`, which filters like false. -/
def sqlEq : Option String → Option String → Bool
  | some a, some b => a == b
  | _, _ => false

/-- `ORDER BY created_at DESC, id DESC` comparison: `a` sorts strictly
before `b` (is more recent, ties broken by larger id). -/
def rowLater (a b : Row) : Bool :=
  b.created_at < a.created_at || (b.created_at == a.created_at && b.id < a.id)

/-- The rows a `WHERE token = %s` clause selects for the bound value. -/
def tokenRows (db : DB) (tok : Option String) : List Row :=
  db.rows.filter fun r => sqlEq (some r.token) tok

/-- The `last_log` CTE (src/app.py lines 169-175): the single row for
`token` that is first under `ORDER BY created_at DESC, id DESC LIMIT 1`,
i.e. the maximum under `rowLater`; `none` when the token has no rows. -/
def lastEntry (db : DB) (tok : Option String) : Option Row :=
  (tokenRows db tok).foldl
    (fun acc r =>
      match acc with
      | none => some r
      | some b => if rowLater r b then some r else some b)
    none

/-- How a `cursor.execute` of the save statement can fail. -/
inductive ExecError where
  /-- Client-side parameter binding failed: psycopg2 raises an
  IndexError/TypeError when the argument tuple length differs from the
  number of `%s` placeholders. Not a `psycopg2.Error`. -/
  | arityMismatch
  /-- A server-side database error (`psycopg2.Error`), e.g. a
  NOT NULL constraint violation. -/
  | dbError
  deriving Repr, DecidableEq

/-- The number of `%s` placeholders in the save statement
(src/app.py lines 168-183): one in the CTE `WHERE token = %s`, three in
`SELECT %s, %s, %s`, and three in the duplicate guard
`last_log.title = %s AND ((last_log.url IS NULL AND %s IS NULL) OR
(last_log.url = %s))`. -/
def savePlaceholders : Nat := 7

/-- The argument tuple `(token, title, url)` that `save_log` passes to
`cur.execute` (src/app.py line 184). -/
def saveArgs (token title url : Option String) : List (Option String) :=
  [token, title, url]

/-- The seven bindings the statement's placeholders call for, read off the
SQL text in positional order: CTE token filter, the three values of
`SELECT %s, %s, %s` (token, title, url), the guard's title, the guard's
null-checked url, and the guard's equality-compared url. -/
def intendedArgs (token title : String) (url : Option String) :
    List (Option String) :=
  [some token, some token, some title, url, some title, url, url]

/-- Semantics of `cur.execute` on the save statement (src/app.py lines
167-185). Binding first checks the placeholder arity; with seven bound
values the CTE-guarded insert runs: if the most recent row for the bound
token has the guard's title and url (null only equal to null, otherwise
SQL `=` on non-null strings), nothing is inserted and `RETURNING` yields
no row; otherwise one row is inserted and `RETURNING` yields its
`(id, created_at)`. Inserting a `NULL` token or title violates NOT NULL
and is a database error. -/
def execSaveStmt (db : DB) (args : List (Option String)) :
    Except ExecError (DB × Option (Nat × Nat)) :=
  if args.length ≠ savePlaceholders then .error .arityMismatch
  else
    match args with
    | [pTok, insTok, insTitle, insUrl, dupTitle, nullUrl, eqUrl] =>
      match insTok, insTitle with
      | some tok, some title =>
        let dup :=
          match lastEntry db pTok with
          | none => false
          | some l =>
            sqlEq (some l.title) dupTitle &&
              ((l.url.isNone && nullUrl.isNone) || sqlEq l.url eqUrl)
        if dup then .ok (db, none)
        else
          let r : Row :=
            { id := db.nextId, token := tok, title := title,
              url := insUrl, created_at := db.clock }
          let db2 : DB :=
            { db with
              rows := db.rows ++ [r]
              nextId := db.nextId + 1
              clock := db.clock + 1 }
          .ok (db2, some (r.id, r.created_at))
      | _, _ => .error .dbError
    | _ => .error .arityMismatch

/-- The HTTP response of the `/save` handler. -/
inductive SaveResponse where
  /-- 400 `{"status":"error","message":"Token or title missing"}`. -/
  | badRequest
  /-- 200 `{"status":"success","id":...,"created_at":...}`. -/
  | success (id : Nat) (createdAt : Nat)
  /-- 500 `{"status":"error","message":"Database error"}`
  (the `except psycopg2.Error` branch). -/
  | dbError
  /-- 500 `{"status":"error","message":"Internal server error"}`
  (the generic `except Exception` branch). -/
  | internalError
  deriving Repr, DecidableEq

/-- The observable outcome of one `/save` request: the response, the
resulting database, and whether the handler acquired a pool connection,
released it (the `finally` block), and called `conn.rollback()`. -/
structure SaveOutcome where
  resp : SaveResponse
  db : DB
  acquired : Bool
  released : Bool
  rolledBack : Bool
  deriving Repr, DecidableEq

/-- The `/save` handler `save_log` (src/app.py lines 145-207).
`token` comes from the query string, `title` and `url` from the JSON body.
Control flow of the source:
* missing/empty token or title: return 400 before any connection is taken;
* otherwise acquire a connection and `cur.execute` the save statement with
  the 3-tuple `(token, title, url)`;
* if execute raises a `psycopg2.Error`: rollback, return 500
  "Database error";
* if execute raises any other exception (in particular the parameter
  arity mismatch): return 500 "Internal server error", no rollback;
* on a result: `log = cur.fetchone(); conn.commit()`; when the insert was
  suppressed `fetchone` returns `None` and the subsequent `log[0]` raises
  `TypeError`, landing in the generic branch after the commit (500, no
  rollback); when a row came back, return its id and timestamp;
* the connection is released in `finally` on every path that acquired it. -/
def save_log (db : DB) (token title url : Option String) : SaveOutcome :=
  if pyTruthy token && pyTruthy title then
    match execSaveStmt db (saveArgs token title url) with
    | .ok (db2, some p) =>
      { resp := .success p.1 p.2, db := db2,
        acquired := true, released := true, rolledBack := false }
    | .ok (db2, none) =>
      { resp := .internalError, db := db2,
        acquired := true, released := true, rolledBack := false }
    | .error .arityMismatch =>
      { resp := .internalError, db := db,
        acquired := true, released := true, rolledBack := false }
    | .error .dbError =>
      { resp := .dbError, db := db,
        acquired := true, released := true, rolledBack := true }
  else
    { resp := .badRequest, db := db,
      acquired := false, released := false, rolledBack := false }

/-- One element of the `logs` array returned by `/logs`
(src/app.py lines 236-244): the projection `id, title, url, created_at`. -/
structure LogItem where
  id : Nat
  title : String
  url : Option String
  created_at : Nat
  deriving Repr, DecidableEq

/-- The projection of a stored row performed by the `/logs` SELECT list. -/
def rowToItem (r : Row) : LogItem :=
  { id := r.id, title := r.title, url := r.url, created_at := r.created_at }

/-- `ORDER BY created_at DESC`: `a` may appear before `b`. -/
def newerFirst (a b : Row) : Prop :=
  b.created_at ≤ a.created_at

instance : DecidableRel newerFirst :=
  fun a b => Nat.decLe b.created_at a.created_at

instance : IsTotal Row newerFirst :=
  ⟨fun a b => Nat.le_total b.created_at a.created_at⟩

instance : IsTrans Row newerFirst :=
  ⟨fun _ _ _ hab hbc => Nat.le_trans hbc hab⟩

/-- The HTTP response of the `/logs` handler. -/
inductive LogsResponse where
  /-- 400 `{"status":"error","message":"Token missing"}`. -/
  | badRequest
  /-- 200 `{"status":"success","logs":[...]}`. -/
  | success (logs : List LogItem)
  deriving Repr, DecidableEq

/-- The `/logs` handler `get_logs` (src/app.py lines 211-257): 400 when the
token is missing or empty, otherwise
`SELECT id, title, url, created_at FROM kindle_logs WHERE token = %s ORDER
BY created_at DESC` (one placeholder, one argument — this statement binds
correctly). The sort is by `created_at` descending only. -/
def get_logs (db : DB) (token : Option String) : LogsResponse :=
  if pyTruthy token then
    .success (((tokenRows db token).insertionSort newerFirst).map rowToItem)
  else .badRequest

/-- The schema-plane state of the `kindle_logs` table: whether the relation
exists, its column names, and its stored rows. -/
structure TableState where
  present : Bool
  columns : List String
  rows : List Row
  deriving Repr, DecidableEq

/-- The columns of the `CREATE TABLE` statement (src/app.py lines 49-55). -/
def createColumns : List String :=
  ["id", "token", "title", "url", "created_at"]

/-- `create_table_if_not_exists` (src/app.py lines 37-69):
`CREATE TABLE IF NOT EXISTS kindle_logs (...)` — creates the empty table
when absent, does nothing when present. Returns the success flag. -/
def create_table_if_not_exists (s : TableState) : Bool × TableState :=
  if s.present then (true, s)
  else (true, { present := true, columns := createColumns, rows := [] })

/-- `add_url_column_if_not_exists` (src/app.py lines 72-107): a `DO` block
that adds a `url TEXT` column only when `information_schema.columns` has no
`url` column for `kindle_logs`. If the table itself is absent the inner
`ALTER TABLE` fails, the except branch rolls back and returns `False`.
Existing columns and rows are never touched. -/
def add_url_column_if_not_exists (s : TableState) : Bool × TableState :=
  if !s.present then (false, s)
  else if "url" ∈ s.columns then (true, s)
  else (true, { s with columns := s.columns ++ ["url"] })

/-- The schema-setup operation as run at startup (src/app.py lines 131-141)
and by `/init-db` (lines 260-281): create the table if absent, then ensure
the `url` column exists. -/
def ensureSchema (s : TableState) : Bool × TableState :=
  let c := create_table_if_not_exists s
  let a := add_url_column_if_not_exists c.2
  (c.1 && a.1, a.2)

/-! ## Helper lemmas -/

/-- Binding the handler's 3-tuple into the statement's 7 placeholders
always fails client-side. -/
theorem execSaveStmt_saveArgs (db : DB) (token title url : Option String) :
    execSaveStmt db (saveArgs token title url) = .error .arityMismatch := rfl

/-- Outcome of `save_log` when validation passes: the binding failure
lands in the generic `except Exception` branch. -/
theorem save_log_valid_outcome (db : DB) (token title url : Option String)
    (h : (pyTruthy token && pyTruthy title) = true) :
    save_log db token title url =
      { resp := .internalError
        db := db
        acquired := true
        released := true
        rolledBack := false } := by
  simp only [save_log, h, if_true, execSaveStmt_saveArgs]

/-- Outcome of `save_log` when validation fails: 400 before any
connection is acquired. -/
theorem save_log_invalid_outcome (db : DB) (token title url : Option String)
    (h : (pyTruthy token && pyTruthy title) = false) :
    save_log db token title url =
      { resp := .badRequest
        db := db
        acquired := false
        released := false
        rolledBack := false } := by
  simp only [save_log, h, Bool.false_eq_true, if_false]

/-! ## Claim theorems -/

/-- C2: for every save request whose (token, title) pair passes
validation, the handler executes a statement with 7 placeholders but
supplies the 3 arguments `(token, title, url)`, so the execute call
raises, the handler answers 500 "Internal server error", the stored rows
are unchanged, and no input whatsoever can reach the success branch. -/
theorem c2_save_success_unreachable (db : DB) (token title url : Option String) :
    (saveArgs token title url).length = 3 ∧
    savePlaceholders = 7 ∧
    (save_log db token title url).db = db ∧
    (∀ i c, (save_log db token title url).resp ≠ .success i c) ∧
    ((pyTruthy token && pyTruthy title) = true →
      (save_log db token title url).resp = .internalError) := by
  by_cases h : (pyTruthy token && pyTruthy title) = true
  · rw [save_log_valid_outcome db token title url h]
    refine ⟨rfl, rfl, rfl, fun i c hc => SaveResponse.noConfusion hc, fun _ => rfl⟩
  · rw [save_log_invalid_outcome db token title url (by revert h; cases pyTruthy token && pyTruthy title <;> simp)]
    refine ⟨rfl, rfl, rfl, fun i c hc => SaveResponse.noConfusion hc, fun hv => absurd hv h⟩

/-- Witness for C2 at a concrete validated request. -/
theorem c2_save_success_unreachable_witness :
    (pyTruthy (some "tok1") && pyTruthy (some "Chapter 1")) = true ∧
    (save_log emptyDB (some "tok1") (some "Chapter 1") none).resp = .internalError :=
  ⟨by decide,
    (c2_save_success_unreachable emptyDB (some "tok1") (some "Chapter 1") none).2.2.2.2
      (by decide)⟩

/-- C7: a save request whose token or title is missing or empty is
rejected with the 400 "Token or title missing" response before a
connection is acquired; the stored state is unchanged. -/
theorem c7_validation_rejects_before_storage (db : DB) (token title url : Option String)
    (h : pyTruthy token = false ∨ pyTruthy title = false) :
    save_log db token title url =
      { resp := .badRequest
        db := db
        acquired := false
        released := false
        rolledBack := false } := by
  apply save_log_invalid_outcome
  rcases h with h | h <;> simp [h]

/-- Witness for C7 at a concrete request with a missing token. -/
theorem c7_validation_rejects_before_storage_witness :
    (pyTruthy none = false ∨ pyTruthy (some "T") = false) ∧
    save_log emptyDB none (some "T") none =
      { resp := .badRequest
        db := emptyDB
        acquired := false
        released := false
        rolledBack := false } :=
  ⟨Or.inl (by decide),
    c7_validation_rejects_before_storage emptyDB none (some "T") none (Or.inl (by decide))⟩

/-- C1 (code bug): the dedup lookup-and-conditional-insert the claim
describes is what the statement performs when its seven placeholders are
bound — on a fresh database `execSaveStmt` with `intendedArgs` inserts
the row, and with that row stored a repeat of the same title and null url
is suppressed — but `save_log` binds only the 3-tuple `(token, title,
url)`, so the execute call raises before any lookup or insert and the
request returns 500 with the database unchanged. -/
theorem c1_dedup_insert_never_runs :
    save_log emptyDB (some "tok1") (some "Chapter 1") none =
      { resp := .internalError
        db := emptyDB
        acquired := true
        released := true
        rolledBack := false } ∧
    execSaveStmt emptyDB (intendedArgs "tok1" "Chapter 1" none) =
      .ok ({ rows := [{ id := 1, token := "tok1", title := "Chapter 1", url := none, created_at := 0 }]
             nextId := 2
             clock := 1 }, some (1, 0)) ∧
    execSaveStmt
        { rows := [{ id := 1, token := "tok1", title := "Chapter 1", url := none, created_at := 0 }]
          nextId := 2
          clock := 1 }
        (intendedArgs "tok1" "Chapter 1" none) =
      .ok ({ rows := [{ id := 1, token := "tok1", title := "Chapter 1", url := none, created_at := 0 }]
             nextId := 2
             clock := 1 }, none) :=
  ⟨rfl, rfl, rfl⟩

/-- C3 (code bug): a save request that duplicates the latest stored entry
for its token does not get a distinct "not inserted" no-op result: the
handler answers 500 "Internal server error" (its execute call raises on
the 3-against-7 parameter binding; and even under the intended seven
bindings the suppressed insert RETURNs no row, `fetchone()` is `None`,
and the success branch's `log[0]` raises after the commit, landing in the
same generic 500 branch). -/
theorem c3_duplicate_save_returns_error :
    (save_log
        { rows := [{ id := 1, token := "tok1", title := "Chapter 1", url := none, created_at := 0 }]
          nextId := 2
          clock := 1 }
        (some "tok1") (some "Chapter 1") none).resp = .internalError ∧
    (save_log
        { rows := [{ id := 1, token := "tok1", title := "Chapter 1", url := none, created_at := 0 }]
          nextId := 2
          clock := 1 }
        (some "tok1") (some "Chapter 1") none).rolledBack = false ∧
    execSaveStmt
        { rows := [{ id := 1, token := "tok1", title := "Chapter 1", url := none, created_at := 0 }]
          nextId := 2
          clock := 1 }
        (intendedArgs "tok1" "Chapter 1" none) =
      .ok ({ rows := [{ id := 1, token := "tok1", title := "Chapter 1", url := none, created_at := 0 }]
             nextId := 2
             clock := 1 }, none) :=
  ⟨rfl, rfl, rfl⟩

/-- C4 (code bug): two successive `saveLog(t, "X", null)` calls on an
empty store leave zero rows, not exactly one — both calls fail with 500
because the execute call raises on parameter binding, so neither
inserts. (The row count after the second call does equal the count after
the first, but only because both are zero.) -/
theorem c4_double_save_stores_nothing :
    ((save_log (save_log emptyDB (some "t") (some "X") none).db
        (some "t") (some "X") none).db.rows.length = 0) ∧
    (save_log emptyDB (some "t") (some "X") none).resp = .internalError ∧
    (save_log (save_log emptyDB (some "t") (some "X") none).db
        (some "t") (some "X") none).resp = .internalError :=
  ⟨rfl, rfl, rfl⟩

/-- C5 (code bug): no `saveLog` call ever succeeds — the concrete valid
request here returns 500 — so a "successful saveLog followed by
listLogs" never happens; after the failed save, `listLogs` for the token
returns the empty sequence instead of a newest entry with the title. -/
theorem c5_save_never_succeeds_so_title_never_listed :
    (save_log emptyDB (some "tok1") (some "Chapter 1") none).resp = .internalError ∧
    get_logs (save_log emptyDB (some "tok1") (some "Chapter 1") none).db (some "tok1") =
      .success [] :=
  ⟨rfl, rfl⟩

/-- C8 counterexample: a concrete save request on which the storage
operation fails (the handler answers 500) but `conn.rollback()` is never
called — the binding failure is not a `psycopg2.Error`, so it lands in
the generic `except Exception` branch, which releases the connection
without rolling back. -/
theorem c8_failing_save_without_rollback :
    (save_log emptyDB (some "t") (some "X") none).resp = .internalError ∧
    (save_log emptyDB (some "t") (some "X") none).released = true ∧
    (save_log emptyDB (some "t") (some "X") none).rolledBack = false :=
  ⟨rfl, rfl, rfl⟩

/-- C8 amended: on every failing exit of the save handler the connection
is released back to the pool, but rollback is performed only by the
`except psycopg2.Error` branch; the failure every validated request
actually hits is the client-side binding exception, so the handler
returns 500 "Internal server error" with the connection released and no
rollback, the stored rows unchanged. -/
theorem c8_rollback_only_on_db_error_branch (db : DB) (token title url : Option String)
    (h : (pyTruthy token && pyTruthy title) = true) :
    (save_log db token title url).resp = .internalError ∧
    (save_log db token title url).released = true ∧
    (save_log db token title url).rolledBack = false ∧
    (save_log db token title url).db = db := by
  rw [save_log_valid_outcome db token title url h]
  exact ⟨rfl, rfl, rfl, rfl⟩

/-- Witness for the amended C8 at a concrete validated request. -/
theorem c8_rollback_only_on_db_error_branch_witness :
    (pyTruthy (some "t") && pyTruthy (some "X")) = true ∧
    (save_log emptyDB (some "t") (some "X") none).rolledBack = false :=
  ⟨by decide,
    (c8_rollback_only_on_db_error_branch emptyDB (some "t") (some "X") none (by decide)).2.2.1⟩

/-- C9 counterexample: a request that supplies no token is rejected with
the 400 "missing" response on both endpoints; no 16-character token is
generated and no cookie is set — the handlers read the token only from
the query string and fail without one. -/
theorem c9_missing_token_rejected :
    get_logs emptyDB none = .badRequest ∧
    (save_log emptyDB none (some "T") none).resp = .badRequest :=
  ⟨rfl, rfl⟩

/-- C9 amended: a request with no token receives a 400 validation error
("Token missing" on `/logs`, "Token or title missing" on `/save`); the
service never generates a token, sets no cookie, and leaves the store
unchanged. -/
theorem c9_missing_token_yields_400 (db : DB) (title url : Option String) :
    get_logs db none = .badRequest ∧
    save_log db none title url =
      { resp := .badRequest
        db := db
        acquired := false
        released := false
        rolledBack := false } :=
  ⟨rfl, save_log_invalid_outcome db none title url rfl⟩

/-- C6: for every non-empty token, `get_logs` answers success (never an
error) with a sequence that contains exactly the stored rows for that
token (as a permutation of their projections) sorted by `created_at`
descending, and that sequence is empty when the token has no rows. -/
theorem c6_logs_complete_sorted_empty_ok (db : DB) (token : Option String)
    (h : pyTruthy token = true) :
    ∃ logs,
      get_logs db token = .success logs ∧
      List.Perm logs ((tokenRows db token).map rowToItem) ∧
      List.Sorted (fun a b : LogItem => b.created_at ≤ a.created_at) logs ∧
      (tokenRows db token = [] → logs = []) := by
  refine ⟨((tokenRows db token).insertionSort newerFirst).map rowToItem, ?_, ?_, ?_, ?_⟩
  · simp only [get_logs, h, if_true]
  · exact (List.perm_insertionSort newerFirst (tokenRows db token)).map rowToItem
  · have hs : List.Sorted newerFirst ((tokenRows db token).insertionSort newerFirst) :=
      List.sorted_insertionSort newerFirst (tokenRows db token)
    exact List.pairwise_map.mpr (hs.imp fun hab => hab)
  · intro he
    rw [he]
    rfl

/-- Witness for C6 at a concrete store and token. -/
theorem c6_logs_complete_sorted_empty_ok_witness :
    pyTruthy (some "a") = true ∧
    ∃ logs,
      get_logs
          { rows := [{ id := 1, token := "a", title := "T1", url := none, created_at := 0 },
                     { id := 2, token := "a", title := "T2", url := some "u", created_at := 1 },
                     { id := 3, token := "b", title := "T3", url := none, created_at := 2 }]
            nextId := 4
            clock := 3 }
          (some "a") = .success logs ∧
      List.Perm logs
        ((tokenRows
            { rows := [{ id := 1, token := "a", title := "T1", url := none, created_at := 0 },
                       { id := 2, token := "a", title := "T2", url := some "u", created_at := 1 },
                       { id := 3, token := "b", title := "T3", url := none, created_at := 2 }]
              nextId := 4
              clock := 3 }
            (some "a")).map rowToItem) ∧
      List.Sorted (fun a b : LogItem => b.created_at ≤ a.created_at) logs ∧
      (tokenRows
          { rows := [{ id := 1, token := "a", title := "T1", url := none, created_at := 0 },
                     { id := 2, token := "a", title := "T2", url := some "u", created_at := 1 },
                     { id := 3, token := "b", title := "T3", url := none, created_at := 2 }]
            nextId := 4
            clock := 3 }
          (some "a") = [] → logs = []) :=
  ⟨by decide,
    c6_logs_complete_sorted_empty_ok
      { rows := [{ id := 1, token := "a", title := "T1", url := none, created_at := 0 },
                 { id := 2, token := "a", title := "T2", url := some "u", created_at := 1 },
                 { id := 3, token := "b", title := "T3", url := none, created_at := 2 }]
        nextId := 4
        clock := 3 }
      (some "a") (by decide)⟩

/-- C10: the schema setup always succeeds and its post-states are fixed
points — running it again from any state it has produced returns success
and changes nothing — and from any state where the table already exists
it keeps every stored row and every existing column. -/
theorem c10_ensureSchema_idempotent_additive (s : TableState) :
    ensureSchema ((ensureSchema s).2) = (true, (ensureSchema s).2) ∧
    (s.present = true →
      (ensureSchema s).2.rows = s.rows ∧
      (ensureSchema s).2.present = true ∧
      ∀ c ∈ s.columns, c ∈ (ensureSchema s).2.columns) := by
  by_cases hp : s.present = true
  · by_cases hu : "url" ∈ s.columns
    · constructor
      · simp [ensureSchema, create_table_if_not_exists, add_url_column_if_not_exists, hp, hu]
      · refine fun _ => ⟨?_, ?_, fun c hc => ?_⟩
        · simp [ensureSchema, create_table_if_not_exists, add_url_column_if_not_exists, hp, hu]
        · simp [ensureSchema, create_table_if_not_exists, add_url_column_if_not_exists, hp, hu]
        · simpa [ensureSchema, create_table_if_not_exists, add_url_column_if_not_exists, hp, hu]
            using hc
    · constructor
      · simp [ensureSchema, create_table_if_not_exists, add_url_column_if_not_exists, hp, hu]
      · refine fun _ => ⟨?_, ?_, fun c hc => ?_⟩
        · simp [ensureSchema, create_table_if_not_exists, add_url_column_if_not_exists, hp, hu]
        · simp [ensureSchema, create_table_if_not_exists, add_url_column_if_not_exists, hp, hu]
        · simp [ensureSchema, create_table_if_not_exists, add_url_column_if_not_exists, hp, hu]
          exact Or.inl hc
  · have hp2 : s.present = false := by revert hp; cases s.present <;> simp
    constructor
    · simp [ensureSchema, create_table_if_not_exists, add_url_column_if_not_exists, hp2,
        createColumns]
    · intro hcontra
      rw [hcontra] at hp2
      cases hp2

/-- Witness for C10 at a concrete pre-`url` table state. -/
theorem c10_ensureSchema_idempotent_additive_witness :
    ({ present := true
       columns := ["id", "token", "title", "created_at"]
       rows := [{ id := 1, token := "a", title := "T1", url := none, created_at := 0 }] } :
        TableState).present = true ∧
    (ensureSchema ((ensureSchema
        { present := true
          columns := ["id", "token", "title", "created_at"]
          rows := [{ id := 1, token := "a", title := "T1", url := none, created_at := 0 }] }).2) =
      (true, (ensureSchema
        { present := true
          columns := ["id", "token", "title", "created_at"]
          rows := [{ id := 1, token := "a", title := "T1", url := none, created_at := 0 }] }).2)) ∧
    (ensureSchema
        { present := true
          columns := ["id", "token", "title", "created_at"]
          rows := [{ id := 1, token := "a", title := "T1", url := none, created_at := 0 }] }).2.rows =
      [{ id := 1, token := "a", title := "T1", url := none, created_at := 0 }] :=
  ⟨rfl,
    (c10_ensureSchema_idempotent_additive
      { present := true
        columns := ["id", "token", "title", "created_at"]
        rows := [{ id := 1, token := "a", title := "T1", url := none, created_at := 0 }] }).1,
    ((c10_ensureSchema_idempotent_additive
      { present := true
        columns := ["id", "token", "title", "created_at"]
        rows := [{ id := 1, token := "a", title := "T1", url := none, created_at := 0 }] }).2 rfl).1⟩

end KindleApp
